import Mathlib

/-!
# The Python binding layer of the steam render engine

A shallow embedding of `src/blender_bak/blender_python.cpp`: the resumable
chunk setters (`set_resumable_chunk_func`, `set_resumable_chunk_range_func`)
and the adapters that forward to a `BlenderSession` method (`render_func`,
`reset_func`, `sync_func`, `draw_func`), with the helpers
`python_thread_state_save` and `python_thread_state_restore`.

Conventions of the embedding.

* A C `int` is an `Int`; the functions embedded here only compare and copy
  their `int` arguments, so no arithmetic can overflow.
* A pointer is a `Nat` address, `0` being `NULL`.
* `PyArg_ParseTuple` belongs to the Python C API.  Its result is an
  `Option`: `none` when it reports failure, `some` of the parsed values
  otherwise.
* `abort()` ends the process: a function yields an `Outcome`, which is
  either `returned` with the value handed back to the interpreter or
  `aborted`, both carrying the state reached at that point.
-/

namespace Steam

/-! ## Results of an extension function -/

/-- What an extension function hands back to the interpreter:
`Py_RETURN_NONE` or `return NULL`. -/
inductive PyReturn where
  | None
  | NULL
  deriving DecidableEq, Repr

/-- How a call ends: it returns to the interpreter, or `abort()` ends the
process.  Either way `state` is the state reached. -/
inductive Outcome (σ : Type) where
  | returned (value : PyReturn) (state : σ)
  | aborted (state : σ)
  deriving DecidableEq, Repr

namespace Outcome

/-- The state reached when the call ended. -/
def state {σ : Type} : Outcome σ → σ
  | returned _ s => s
  | aborted s => s

/-- The call ended in `abort()`. -/
def isAborted {σ : Type} : Outcome σ → Bool
  | returned _ _ => false
  | aborted _ => true

end Outcome

/-! ## Resumable render: the static fields of `BlenderSession` -/

/-- The process state the resumable-chunk functions read and write: the
static fields of `BlenderSession` they assign, and the three output streams
they write to (`fprintf(stderr, ..)`, `printf`, `VLOG(1)`), each as the list
of messages written so far. -/
structure Statics where
  num_resumable_chunks : Int
  current_resumable_chunk : Int
  start_resumable_chunk : Int
  end_resumable_chunk : Int
  stderr : List String
  stdout : List String
  vlog : List String
  deriving DecidableEq, Repr

/-- Writes `fprintf(stderr, msg)`. -/
def fprintf_stderr (msg : String) (s : Statics) : Statics :=
  { s with stderr := s.stderr ++ [msg] }

/-- Writes `printf(msg)`. -/
def printf (msg : String) (s : Statics) : Statics :=
  { s with stdout := s.stdout ++ [msg] }

/-- Writes `VLOG(1) << msg`. -/
def VLOG (msg : String) (s : Statics) : Statics :=
  { s with vlog := s.vlog ++ [msg] }

/-- Embeds `set_resumable_chunk_func`.  `parsed` is the result of
`PyArg_ParseTuple(args, "ii", &num_resumable_chunks, &current_resumable_chunk)`. -/
def set_resumable_chunk_func (parsed : Option (Int × Int)) (s : Statics) : Outcome Statics :=
  match parsed with
  | none => .returned .None s
  | some (num_resumable_chunks, current_resumable_chunk) =>
    if num_resumable_chunks ≤ 0 then
      .aborted (fprintf_stderr "Cycles: Bad value for number of resumable chunks.\n" s)
    else if current_resumable_chunk < 1 ∨ current_resumable_chunk > num_resumable_chunks then
      .aborted (fprintf_stderr "Cycles: Bad value for current resumable chunk number.\n" s)
    else
      let s := VLOG ("Initialized resumable render: " ++ "num_resumable_chunks="
        ++ toString num_resumable_chunks ++ ", " ++ "current_resumable_chunk="
        ++ toString current_resumable_chunk) s
      let s := { s with num_resumable_chunks := num_resumable_chunks }
      let s := { s with current_resumable_chunk := current_resumable_chunk }
      let s := printf ("Cycles: Will render chunk " ++ toString current_resumable_chunk
        ++ " of " ++ toString num_resumable_chunks ++ "\n") s
      .returned .None s

/-- Embeds `set_resumable_chunk_range_func`.  `parsed` is the result of
`PyArg_ParseTuple(args, "iii", &num_chunks, &start_chunk, &end_chunk)`. -/
def set_resumable_chunk_range_func (parsed : Option (Int × Int × Int)) (s : Statics) :
    Outcome Statics :=
  match parsed with
  | none => .returned .None s
  | some (num_chunks, start_chunk, end_chunk) =>
    if num_chunks ≤ 0 then
      .aborted (fprintf_stderr "Cycles: Bad value for number of resumable chunks.\n" s)
    else if start_chunk < 1 ∨ start_chunk > num_chunks then
      .aborted (fprintf_stderr "Cycles: Bad value for start chunk number.\n" s)
    else if end_chunk < 1 ∨ end_chunk > num_chunks then
      .aborted (fprintf_stderr "Cycles: Bad value for start chunk number.\n" s)
    else if start_chunk > end_chunk then
      .aborted (fprintf_stderr "Cycles: End chunk should be higher than start one.\n" s)
    else
      let s := VLOG ("Initialized resumable render: " ++ "num_resumable_chunks="
        ++ toString num_chunks ++ ", " ++ "start_resumable_chunk=" ++ toString start_chunk
        ++ "end_resumable_chunk=" ++ toString end_chunk) s
      let s := { s with num_resumable_chunks := num_chunks }
      let s := { s with start_resumable_chunk := start_chunk }
      let s := { s with end_resumable_chunk := end_chunk }
      let s := printf ("Cycles: Will render chunks " ++ toString start_chunk ++ " to "
        ++ toString end_chunk ++ " of " ++ toString num_chunks ++ "\n") s
      .returned .None s

/-- The messages `set_resumable_chunk_func` writes to `stderr` before it
aborts. -/
def chunk_bad_value_messages : List String :=
  [ "Cycles: Bad value for number of resumable chunks.\n",
    "Cycles: Bad value for current resumable chunk number.\n" ]

/-- A sample process state: no resumable render configured, nothing written. -/
def statics0 : Statics :=
  { num_resumable_chunks := 0, current_resumable_chunk := 0,
    start_resumable_chunk := 0, end_resumable_chunk := 0,
    stderr := [], stdout := [], vlog := [] }

/-! ## The interpreter lock and the session adapters -/

/-- An address; `0` is `NULL`. -/
abbrev Ptr := Nat

/-- A Python object passed as an argument, as far as the adapters look at
it: `voidptr` is the address `PyLong_AsVoidPtr` yields for it. -/
structure PyObject where
  voidptr : Ptr
  deriving DecidableEq, Repr

/-- Reads the address out of an argument object. -/
def PyLong_AsVoidPtr (o : PyObject) : Ptr := o.voidptr

/-- The four integers `glGetIntegerv(GL_VIEWPORT, viewport)` stores:
`viewport[0]` to `viewport[3]`, that is x, y, width and height. -/
structure Viewport where
  x : Int
  y : Int
  width : Int
  height : Int
  deriving DecidableEq, Repr

/-- The state the adapters run in.  `tstate_current` is the interpreter's
current thread state: non-null exactly while this thread holds the
interpreter lock.  `python_thread_state session` is the field
`session->python_thread_state` of the session at address `session`.
`gl_viewport` is the current GL viewport.  `engine` stands for everything
else the renderer owns. -/
structure World (E : Type) where
  tstate_current : Ptr
  python_thread_state : Ptr → Ptr
  gl_viewport : Viewport
  engine : E

/-- A `BlenderSession` method an adapter forwards to, with its arguments
(RNA wrappers are identified with the address they wrap). -/
inductive Method where
  | render (b_depsgraph : Ptr)
  | reset_session (b_data b_depsgraph : Ptr)
  | synchronize (b_depsgraph : Ptr)
  | draw (w h : Int)
  deriving DecidableEq, Repr

/-- The effect of the session methods, which live in the renderer and are a
parameter here: `sem session m w` is the world after method `m` ran on the
session at address `session` from world `w`. -/
abbrev SessionSem (E : Type) := Ptr → Method → World E → World E

/-- What is observed of a run, in order.  A `call` records, next to the
session and the method, the interpreter's current thread state and the
session's `python_thread_state` at the moment of the call. -/
inductive Event where
  | PyEval_SaveThread (saved : Ptr)
  | PyEval_RestoreThread (tstate : Ptr)
  | call (session : Ptr) (m : Method) (tstate_current : Ptr) (python_thread_state : Ptr)
  deriving DecidableEq, Repr

/-- A world together with the events observed so far. -/
structure Machine (E : Type) where
  world : World E
  trace : List Event

/-- The thread holds the interpreter lock. -/
def lock_held {E : Type} (w : World E) : Prop := w.tstate_current ≠ 0

/-- The thread has released the interpreter lock. -/
def lock_released {E : Type} (w : World E) : Prop := w.tstate_current = 0

instance {E : Type} (w : World E) : Decidable (lock_held w) := by
  unfold lock_held; infer_instance

instance {E : Type} (w : World E) : Decidable (lock_released w) := by
  unfold lock_released; infer_instance

/-- Python C API: releases the interpreter lock, resets the current thread
state to `NULL` and returns the previous thread state. -/
def PyEval_SaveThread {E : Type} (m : Machine E) : Ptr × Machine E :=
  let saved := m.world.tstate_current
  (saved, { world := { m.world with tstate_current := 0 },
            trace := m.trace ++ [Event.PyEval_SaveThread saved] })

/-- Python C API: acquires the interpreter lock and sets the current thread
state to `tstate`. -/
def PyEval_RestoreThread {E : Type} (tstate : Ptr) (m : Machine E) : Machine E :=
  { world := { m.world with tstate_current := tstate },
    trace := m.trace ++ [Event.PyEval_RestoreThread tstate] }

/-- Embeds `python_thread_state_save(&session->python_thread_state)`:
`*python_thread_state = (void *)PyEval_SaveThread()`.  The slot is named by
the session that owns it. -/
def python_thread_state_save {E : Type} (session : Ptr) (m : Machine E) : Machine E :=
  let r := PyEval_SaveThread m
  { r.2 with world :=
      { r.2.world with
        python_thread_state := Function.update r.2.world.python_thread_state session r.1 } }

/-- Embeds `python_thread_state_restore(&session->python_thread_state)`:
`PyEval_RestoreThread((PyThreadState *)*python_thread_state)` and then
`*python_thread_state = NULL`. -/
def python_thread_state_restore {E : Type} (session : Ptr) (m : Machine E) : Machine E :=
  let m := PyEval_RestoreThread (m.world.python_thread_state session) m
  { m with world :=
      { m.world with
        python_thread_state := Function.update m.world.python_thread_state session 0 } }

/-- A call `session->m(..)`: the event is recorded and the method's effect
applied. -/
def session_call {E : Type} (sem : SessionSem E) (session : Ptr) (meth : Method)
    (m : Machine E) : Machine E :=
  { world := sem session meth m.world,
    trace := m.trace ++
      [Event.call session meth m.world.tstate_current (m.world.python_thread_state session)] }

/-- Reads `glGetIntegerv(GL_VIEWPORT, viewport)`. -/
def glGetIntegerv_GL_VIEWPORT {E : Type} (m : Machine E) : Viewport := m.world.gl_viewport

/-- Embeds `render_func`.  `parsed` is the result of
`PyArg_ParseTuple(args, "OO", &pysession, &pydepsgraph)`. -/
def render_func {E : Type} (sem : SessionSem E) (parsed : Option (PyObject × PyObject))
    (m : Machine E) : PyReturn × Machine E :=
  match parsed with
  | none => (.NULL, m)
  | some (pysession, pydepsgraph) =>
    let session := PyLong_AsVoidPtr pysession
    let b_depsgraph := PyLong_AsVoidPtr pydepsgraph
    let m := python_thread_state_save session m
    let m := session_call sem session (.render b_depsgraph) m
    let m := python_thread_state_restore session m
    (.None, m)

/-- Embeds `draw_func`.  `parsed` is the result of
`PyArg_ParseTuple(args, "OOOO", &pysession, &pygraph, &pyv3d, &pyrv3d)`. -/
def draw_func {E : Type} (sem : SessionSem E)
    (parsed : Option (PyObject × PyObject × PyObject × PyObject))
    (m : Machine E) : PyReturn × Machine E :=
  match parsed with
  | none => (.NULL, m)
  | some (pysession, _pygraph, _pyv3d, pyrv3d) =>
    let session := PyLong_AsVoidPtr pysession
    if PyLong_AsVoidPtr pyrv3d ≠ 0 then
      let viewport := glGetIntegerv_GL_VIEWPORT m
      let m := session_call sem session (.draw viewport.width viewport.height) m
      (.None, m)
    else
      (.None, m)

/-- Embeds `reset_func`.  `parsed` is the result of
`PyArg_ParseTuple(args, "OOO", &pysession, &pydata, &pydepsgraph)`. -/
def reset_func {E : Type} (sem : SessionSem E)
    (parsed : Option (PyObject × PyObject × PyObject))
    (m : Machine E) : PyReturn × Machine E :=
  match parsed with
  | none => (.NULL, m)
  | some (pysession, pydata, pydepsgraph) =>
    let session := PyLong_AsVoidPtr pysession
    let b_data := PyLong_AsVoidPtr pydata
    let b_depsgraph := PyLong_AsVoidPtr pydepsgraph
    let m := python_thread_state_save session m
    let m := session_call sem session (.reset_session b_data b_depsgraph) m
    let m := python_thread_state_restore session m
    (.None, m)

/-- Embeds `sync_func`.  `parsed` is the result of
`PyArg_ParseTuple(args, "OO", &pysession, &pydepsgraph)`. -/
def sync_func {E : Type} (sem : SessionSem E) (parsed : Option (PyObject × PyObject))
    (m : Machine E) : PyReturn × Machine E :=
  match parsed with
  | none => (.NULL, m)
  | some (pysession, pydepsgraph) =>
    let session := PyLong_AsVoidPtr pysession
    let b_depsgraph := PyLong_AsVoidPtr pydepsgraph
    let m := python_thread_state_save session m
    let m := session_call sem session (.synchronize b_depsgraph) m
    let m := python_thread_state_restore session m
    (.None, m)

/-- A session method returns with `session->python_thread_state` holding
what it held when the method was called. -/
def keeps_thread_state {E : Type} (sem : SessionSem E) : Prop :=
  ∀ (session : Ptr) (meth : Method) (w : World E),
    (sem session meth w).python_thread_state session = w.python_thread_state session

/-- The world a session method is entered in when the adapter released the
lock first: the interpreter has no current thread state and
`session->python_thread_state` holds the thread state saved on entry. -/
def world_at_call {E : Type} (session : Ptr) (w : World E) : World E :=
  { w with tstate_current := 0,
           python_thread_state := Function.update w.python_thread_state session w.tstate_current }

/-- The world an adapter returns in, given the world `w` the session method
left: the lock is reacquired under thread state `tstate` and
`session->python_thread_state` is `NULL`; everything else is as the method
left it. -/
def world_on_return {E : Type} (session : Ptr) (tstate : Ptr) (w : World E) : World E :=
  { w with tstate_current := tstate,
           python_thread_state := Function.update w.python_thread_state session 0 }

/-- A sample renderer: every session method counts one step of work. -/
def sem0 : SessionSem Nat := fun _ _ w => { w with engine := w.engine + 1 }

/-- A sample entry state: the lock is held with thread state `7`, no session
has a saved thread state, the viewport is 640 by 480. -/
def machine0 : Machine Nat :=
  { world := { tstate_current := 7, python_thread_state := fun _ => 0,
               gl_viewport := { x := 0, y := 0, width := 640, height := 480 },
               engine := 0 },
    trace := [] }

/-! ## Theorems: resumable chunks -/

/-- C1: for all ints `n` and `c`, `set_resumable_chunk_func(n, c)` is
accepted exactly when `1 ≤ n` and `1 ≤ c ≤ n`.  Accepted, it returns `None`
with `num_resumable_chunks = n` and `current_resumable_chunk = c`.  Not
accepted, the process aborts after one of the two "Bad value" messages went
to `stderr`, and that message is the only change to the state, so neither
field was written.  When the arguments do not parse it returns `None` and
the state is unchanged. -/
theorem set_resumable_chunk_func_contract (s : Statics) (n c : Int) :
    ((1 ≤ n ∧ 1 ≤ c ∧ c ≤ n) ↔
      ∃ s', set_resumable_chunk_func (some (n, c)) s = .returned .None s' ∧
        s'.num_resumable_chunks = n ∧ s'.current_resumable_chunk = c) ∧
    (¬ (1 ≤ n ∧ 1 ≤ c ∧ c ≤ n) ↔
      ∃ msg ∈ chunk_bad_value_messages,
        set_resumable_chunk_func (some (n, c)) s
          = .aborted { s with stderr := s.stderr ++ [msg] }) ∧
    set_resumable_chunk_func none s = .returned .None s := by
  refine ⟨?_, ?_, rfl⟩
  · constructor
    · rintro ⟨h1, h2, h3⟩
      have hn : ¬ n ≤ 0 := by omega
      have hc : ¬ (c < 1 ∨ c > n) := by omega
      simp [set_resumable_chunk_func, hn, hc, printf, VLOG]
    · rintro ⟨s', h, -, -⟩
      by_cases hn : n ≤ 0
      · simp [set_resumable_chunk_func, hn] at h
      · by_cases hc : c < 1 ∨ c > n
        · simp [set_resumable_chunk_func, hn, hc] at h
        · omega
  · constructor
    · intro h
      by_cases hn : n ≤ 0
      · exact ⟨_, List.mem_cons_self _ _, by simp [set_resumable_chunk_func, hn, fprintf_stderr]⟩
      · have hc : c < 1 ∨ c > n := by omega
        exact ⟨_, List.mem_cons_of_mem _ (List.mem_cons_self _ _),
          by simp [set_resumable_chunk_func, hn, hc, fprintf_stderr]⟩
    · rintro ⟨msg, -, h⟩ ⟨h1, h2, h3⟩
      have hn : ¬ n ≤ 0 := by omega
      have hc : ¬ (c < 1 ∨ c > n) := by omega
      simp [set_resumable_chunk_func, hn, hc] at h

/-- C2: for all ints `num`, `start` and `end`,
`set_resumable_chunk_range_func(num, start, end)` is accepted exactly when
`1 ≤ num`, `1 ≤ start ≤ num`, `1 ≤ end ≤ num` and `start ≤ end`.  Accepted,
it returns `None` with `num_resumable_chunks = num`,
`start_resumable_chunk = start`, `end_resumable_chunk = end` and
`current_resumable_chunk` as before.  Not accepted, the process aborts and a
message on `stderr` is the only change to the state, so no field was
written. -/
theorem set_resumable_chunk_range_func_contract (s : Statics) (num start_chunk end_chunk : Int) :
    ((1 ≤ num ∧ 1 ≤ start_chunk ∧ start_chunk ≤ num ∧ 1 ≤ end_chunk ∧ end_chunk ≤ num ∧
        start_chunk ≤ end_chunk) ↔
      ∃ s', set_resumable_chunk_range_func (some (num, start_chunk, end_chunk)) s
          = .returned .None s' ∧
        s'.num_resumable_chunks = num ∧ s'.start_resumable_chunk = start_chunk ∧
        s'.end_resumable_chunk = end_chunk ∧
        s'.current_resumable_chunk = s.current_resumable_chunk) ∧
    (¬ (1 ≤ num ∧ 1 ≤ start_chunk ∧ start_chunk ≤ num ∧ 1 ≤ end_chunk ∧ end_chunk ≤ num ∧
        start_chunk ≤ end_chunk) ↔
      ∃ msg, set_resumable_chunk_range_func (some (num, start_chunk, end_chunk)) s
          = .aborted { s with stderr := s.stderr ++ [msg] }) := by
  by_cases h1 : num ≤ 0
  · have hc : ¬ (1 ≤ num ∧ 1 ≤ start_chunk ∧ start_chunk ≤ num ∧ 1 ≤ end_chunk ∧
        end_chunk ≤ num ∧ start_chunk ≤ end_chunk) := by omega
    simp [set_resumable_chunk_range_func, h1, hc, fprintf_stderr]
  by_cases h2 : start_chunk < 1 ∨ start_chunk > num
  · have hc : ¬ (1 ≤ num ∧ 1 ≤ start_chunk ∧ start_chunk ≤ num ∧ 1 ≤ end_chunk ∧
        end_chunk ≤ num ∧ start_chunk ≤ end_chunk) := by omega
    simp [set_resumable_chunk_range_func, h1, h2, hc, fprintf_stderr]
  by_cases h3 : end_chunk < 1 ∨ end_chunk > num
  · have hc : ¬ (1 ≤ num ∧ 1 ≤ start_chunk ∧ start_chunk ≤ num ∧ 1 ≤ end_chunk ∧
        end_chunk ≤ num ∧ start_chunk ≤ end_chunk) := by omega
    simp [set_resumable_chunk_range_func, h1, h2, h3, hc, fprintf_stderr]
  by_cases h4 : start_chunk > end_chunk
  · have hc : ¬ (1 ≤ num ∧ 1 ≤ start_chunk ∧ start_chunk ≤ num ∧ 1 ≤ end_chunk ∧
        end_chunk ≤ num ∧ start_chunk ≤ end_chunk) := by omega
    simp [set_resumable_chunk_range_func, h1, h2, h3, h4, hc, fprintf_stderr]
  · have hc : 1 ≤ num ∧ 1 ≤ start_chunk ∧ start_chunk ≤ num ∧ 1 ≤ end_chunk ∧
        end_chunk ≤ num ∧ start_chunk ≤ end_chunk := by omega
    simp [set_resumable_chunk_range_func, h1, h2, h3, h4, hc, printf, VLOG]

/-- C3, as stated, fails: the call with `num = 1`, `start = 1`, `end = 1`
is accepted (it returns `None` and stores the range), although the end chunk
is not strictly higher than the start chunk. -/
theorem set_resumable_chunk_range_func_accepts_equal :
    (set_resumable_chunk_range_func (some (1, 1, 1)) statics0).isAborted = false ∧
    (set_resumable_chunk_range_func (some (1, 1, 1)) statics0).state.start_resumable_chunk = 1 ∧
    (set_resumable_chunk_range_func (some (1, 1, 1)) statics0).state.end_resumable_chunk = 1 ∧
    ¬ ((1 : Int) > 1) := by
  refine ⟨by decide, by decide, by decide, by decide⟩

/-- C3, amended: for every call `set_resumable_chunk_range_func(num, start,
end)` that is accepted (does not abort), the end chunk is not lower than the
start chunk: `start ≤ end`. -/
theorem set_resumable_chunk_range_func_accepted_order (s : Statics)
    (num start_chunk end_chunk : Int)
    (h : (set_resumable_chunk_range_func (some (num, start_chunk, end_chunk)) s).isAborted
      = false) :
    start_chunk ≤ end_chunk := by
  by_contra hlt
  have h4 : start_chunk > end_chunk := by omega
  by_cases h1 : num ≤ 0
  · simp [set_resumable_chunk_range_func, h1, Outcome.isAborted] at h
  by_cases h2 : start_chunk < 1 ∨ start_chunk > num
  · simp [set_resumable_chunk_range_func, h1, h2, Outcome.isAborted] at h
  by_cases h3 : end_chunk < 1 ∨ end_chunk > num
  · simp [set_resumable_chunk_range_func, h1, h2, h3, Outcome.isAborted] at h
  · simp [set_resumable_chunk_range_func, h1, h2, h3, h4, Outcome.isAborted] at h

/-- C3, amended, at a sample call: chunks 2 to 3 of 4 are accepted, and
`2 ≤ 3`. -/
theorem set_resumable_chunk_range_func_accepted_order_witness :
    (set_resumable_chunk_range_func (some (4, 2, 3)) statics0).isAborted = false ∧
    (2 : Int) ≤ 3 :=
  ⟨by decide, set_resumable_chunk_range_func_accepted_order statics0 4 2 3 (by decide)⟩

/-! ## Theorems: the interpreter lock around session calls -/

/-- The three steps of an adapter that releases the lock around a session
call, from an entry state `m`. -/
theorem save_call_restore {E : Type} (sem : SessionSem E) (hsem : keeps_thread_state sem)
    (session : Ptr) (meth : Method) (m : Machine E) :
    (python_thread_state_restore session
        (session_call sem session meth (python_thread_state_save session m))).trace
      = m.trace ++ [Event.PyEval_SaveThread m.world.tstate_current,
          Event.call session meth 0 m.world.tstate_current,
          Event.PyEval_RestoreThread m.world.tstate_current] ∧
    (python_thread_state_restore session
        (session_call sem session meth (python_thread_state_save session m))).world.tstate_current
      = m.world.tstate_current ∧
    (python_thread_state_restore session
        (session_call sem session meth
          (python_thread_state_save session m))).world.python_thread_state session = 0 ∧
    (python_thread_state_restore session
        (session_call sem session meth (python_thread_state_save session m))).world
      = world_on_return session m.world.tstate_current
          (sem session meth (world_at_call session m.world)) := by
  simp [python_thread_state_restore, session_call, python_thread_state_save,
    PyEval_SaveThread, PyEval_RestoreThread, hsem session meth, world_at_call,
    world_on_return]

/-- C4: `render_func`, `reset_func` and `sync_func`, entered with the lock
held and arguments that parse, each do exactly three things in order:
`PyEval_SaveThread` releases the lock and its result is stored in
`session->python_thread_state`; the session method (`render`,
`reset_session`, `synchronize`) is called once, with the lock released and
the slot holding the saved state; `PyEval_RestoreThread` reacquires the lock
with that same saved state.  The function returns `None` with the lock held
and the slot `NULL`.  When the arguments do not parse it returns `NULL` and
nothing happened: no release, no call.  The world it returns in is the one
the session method produced from the released world, with the lock
reacquired and the slot cleared, so the method did run.  The session methods
are assumed to return with the slot as they found it. -/
theorem session_adapters_release_lock {E : Type} (sem : SessionSem E)
    (hsem : keeps_thread_state sem) (m : Machine E) (hheld : lock_held m.world)
    (pysession pydata pydepsgraph : PyObject) :
    ((render_func sem (some (pysession, pydepsgraph)) m).1 = PyReturn.None ∧
      (render_func sem (some (pysession, pydepsgraph)) m).2.trace
        = m.trace ++ [Event.PyEval_SaveThread m.world.tstate_current,
            Event.call pysession.voidptr (Method.render pydepsgraph.voidptr) 0
              m.world.tstate_current,
            Event.PyEval_RestoreThread m.world.tstate_current] ∧
      lock_held (render_func sem (some (pysession, pydepsgraph)) m).2.world ∧
      (render_func sem (some (pysession, pydepsgraph)) m).2.world.python_thread_state
        pysession.voidptr = 0 ∧
      render_func sem none m = (PyReturn.NULL, m) ∧
      (render_func sem (some (pysession, pydepsgraph)) m).2.world
        = world_on_return pysession.voidptr m.world.tstate_current
            (sem pysession.voidptr (Method.render pydepsgraph.voidptr)
              (world_at_call pysession.voidptr m.world))) ∧
    ((reset_func sem (some (pysession, pydata, pydepsgraph)) m).1 = PyReturn.None ∧
      (reset_func sem (some (pysession, pydata, pydepsgraph)) m).2.trace
        = m.trace ++ [Event.PyEval_SaveThread m.world.tstate_current,
            Event.call pysession.voidptr
              (Method.reset_session pydata.voidptr pydepsgraph.voidptr) 0
              m.world.tstate_current,
            Event.PyEval_RestoreThread m.world.tstate_current] ∧
      lock_held (reset_func sem (some (pysession, pydata, pydepsgraph)) m).2.world ∧
      (reset_func sem (some (pysession, pydata, pydepsgraph)) m).2.world.python_thread_state
        pysession.voidptr = 0 ∧
      reset_func sem none m = (PyReturn.NULL, m) ∧
      (reset_func sem (some (pysession, pydata, pydepsgraph)) m).2.world
        = world_on_return pysession.voidptr m.world.tstate_current
            (sem pysession.voidptr (Method.reset_session pydata.voidptr pydepsgraph.voidptr)
              (world_at_call pysession.voidptr m.world))) ∧
    ((sync_func sem (some (pysession, pydepsgraph)) m).1 = PyReturn.None ∧
      (sync_func sem (some (pysession, pydepsgraph)) m).2.trace
        = m.trace ++ [Event.PyEval_SaveThread m.world.tstate_current,
            Event.call pysession.voidptr (Method.synchronize pydepsgraph.voidptr) 0
              m.world.tstate_current,
            Event.PyEval_RestoreThread m.world.tstate_current] ∧
      lock_held (sync_func sem (some (pysession, pydepsgraph)) m).2.world ∧
      (sync_func sem (some (pysession, pydepsgraph)) m).2.world.python_thread_state
        pysession.voidptr = 0 ∧
      sync_func sem none m = (PyReturn.NULL, m) ∧
      (sync_func sem (some (pysession, pydepsgraph)) m).2.world
        = world_on_return pysession.voidptr m.world.tstate_current
            (sem pysession.voidptr (Method.synchronize pydepsgraph.voidptr)
              (world_at_call pysession.voidptr m.world))) := by
  have key := fun meth => save_call_restore sem hsem pysession.voidptr meth m
  refine ⟨⟨rfl, (key _).1, ?_, (key _).2.2.1, rfl, (key _).2.2.2⟩,
    ⟨rfl, (key _).1, ?_, (key _).2.2.1, rfl, (key _).2.2.2⟩,
    ⟨rfl, (key _).1, ?_, (key _).2.2.1, rfl, (key _).2.2.2⟩⟩
  · intro h
    exact hheld (((key _).2.1).symm.trans h)
  · intro h
    exact hheld (((key _).2.1).symm.trans h)
  · intro h
    exact hheld (((key _).2.1).symm.trans h)

/-- C4 at a sample call: session `1`, data `3`, depsgraph `2`, entered with
the lock held under thread state `7`, with a renderer that counts calls:
after `render_func` the count is `1`. -/
theorem session_adapters_release_lock_witness :
    keeps_thread_state sem0 ∧ lock_held machine0.world ∧
    (render_func sem0 (some (⟨1⟩, ⟨2⟩)) machine0).2.trace
      = [Event.PyEval_SaveThread 7, Event.call 1 (Method.render 2) 0 7,
          Event.PyEval_RestoreThread 7] ∧
    (reset_func sem0 (some (⟨1⟩, ⟨3⟩, ⟨2⟩)) machine0).2.trace
      = [Event.PyEval_SaveThread 7, Event.call 1 (Method.reset_session 3 2) 0 7,
          Event.PyEval_RestoreThread 7] ∧
    (sync_func sem0 (some (⟨1⟩, ⟨2⟩)) machine0).2.trace
      = [Event.PyEval_SaveThread 7, Event.call 1 (Method.synchronize 2) 0 7,
          Event.PyEval_RestoreThread 7] ∧
    lock_held (render_func sem0 (some (⟨1⟩, ⟨2⟩)) machine0).2.world ∧
    (render_func sem0 (some (⟨1⟩, ⟨2⟩)) machine0).2.world.python_thread_state 1 = 0 ∧
    (render_func sem0 (some (⟨1⟩, ⟨2⟩)) machine0).2.world
      = world_on_return 1 7 (sem0 1 (Method.render 2) (world_at_call 1 machine0.world)) ∧
    (render_func sem0 (some (⟨1⟩, ⟨2⟩)) machine0).2.world.engine = 1 :=
  have h := session_adapters_release_lock sem0 (fun _ _ _ => rfl) machine0 (by decide)
    ⟨1⟩ ⟨3⟩ ⟨2⟩
  ⟨fun _ _ _ => rfl, by decide, h.1.2.1, h.2.1.2.1, h.2.2.2.1, h.1.2.2.1, h.1.2.2.2.1,
    h.1.2.2.2.2.2, congrArg World.engine h.1.2.2.2.2.2⟩

/-- C5, as stated, fails: entered with the lock held (thread state `7`) and
a non-null rv3d handle, `draw_func` calls `session->draw(640, 480)` while
the interpreter's current thread state is still `7` (the third field of the
`call` event), that is with the lock held and not released; the call is the
only event, so `PyEval_SaveThread` and `PyEval_RestoreThread` never run. -/
theorem draw_func_calls_with_lock_held :
    lock_held machine0.world ∧
    (draw_func sem0 (some (⟨1⟩, ⟨2⟩, ⟨3⟩, ⟨4⟩)) machine0).2.trace
      = [Event.call 1 (Method.draw 640 480) 7 0] ∧
    (7 : Ptr) ≠ 0 := by
  refine ⟨by decide, rfl, by decide⟩

/-- C5, amended: `draw_func` does not release the interpreter lock.  When
the rv3d handle is non-null it calls `session->draw` exactly once, with the
GL viewport's width and height, while the interpreter's thread state and
`session->python_thread_state` are what they were on entry (so with the lock
held when it was entered with the lock held); it calls neither
`PyEval_SaveThread` nor `PyEval_RestoreThread`, and returns `None` in the
state the draw left. -/
theorem draw_func_forwards_without_release {E : Type} (sem : SessionSem E) (m : Machine E)
    (pysession pygraph pyv3d pyrv3d : PyObject) (hrv3d : PyLong_AsVoidPtr pyrv3d ≠ 0) :
    (draw_func sem (some (pysession, pygraph, pyv3d, pyrv3d)) m).1 = PyReturn.None ∧
    (draw_func sem (some (pysession, pygraph, pyv3d, pyrv3d)) m).2.trace
      = m.trace ++ [Event.call pysession.voidptr
          (Method.draw m.world.gl_viewport.width m.world.gl_viewport.height)
          m.world.tstate_current (m.world.python_thread_state pysession.voidptr)] ∧
    (draw_func sem (some (pysession, pygraph, pyv3d, pyrv3d)) m).2.world
      = sem pysession.voidptr
          (Method.draw m.world.gl_viewport.width m.world.gl_viewport.height) m.world := by
  have h : pyrv3d.voidptr ≠ 0 := hrv3d
  simp [draw_func, h, session_call, glGetIntegerv_GL_VIEWPORT, PyLong_AsVoidPtr]

/-- C5, amended, at a sample call: rv3d handle `4`, viewport 640 by 480,
lock held under thread state `7`. -/
theorem draw_func_forwards_without_release_witness :
    PyLong_AsVoidPtr ⟨4⟩ ≠ 0 ∧
    (draw_func sem0 (some (⟨5⟩, ⟨2⟩, ⟨3⟩, ⟨4⟩)) machine0).2.trace
      = [] ++ [Event.call 5 (Method.draw 640 480) 7 0] :=
  ⟨by decide, (draw_func_forwards_without_release sem0 machine0 ⟨5⟩ ⟨2⟩ ⟨3⟩ ⟨4⟩
    (by decide)).2.1⟩

end Steam
